import Mathlib

/-!
Verification of the microgrid VPS prototype (cloud API + edge controller).

The cloud side (`cloud/app.py`) keeps three in-memory dictionaries
(`sites`, `enrollment_tokens`, `edges`) and exposes handlers
`set_desired_config`, `get_desired_config`, `generate_token`,
`register_edge` and `get_edge_config`.  We embed the dictionaries as
association lists with unique keys (the standard shallow embedding of a
Python `dict`) and each handler as an explicit state transformer.  A
handler that raises `HTTPException` is embedded as returning the error
together with the store state at the moment of the raise.

The edge side (`edge/app.py`) keeps an `EdgeState` object mutated by
`register_with_cloud`, `refresh_config` and the background loop
`run_background_tasks`.  Network interaction is embedded by passing the
outcome of the single HTTP call each method performs as an explicit
argument: `httpx` transport errors and non-2xx statuses (both caught by
the same `except httpx.HTTPError` handler after `raise_for_status`) are
one `failure` outcome, and a 2xx outcome carries the decoded body.

The desired-configuration payload is an opaque JSON blob in the source;
we keep it as a type parameter `Config`.
-/

set_option autoImplicit false

universe u

section DictModel

variable {V : Type u}

/-- Lookup in a Python-dict association list: the value at the first
entry whose key matches, as `d.get(k)` / `k in d`. -/
def dlookup (k : String) : List (String × V) → Option V
  | [] => none
  | (k', v) :: rest => if k' = k then some v else dlookup k rest

/-- Assignment `d[k] = v` on a Python dict: replace the value in place
if the key is present, append the new entry otherwise. -/
def dinsert (k : String) (v : V) : List (String × V) → List (String × V)
  | [] => [(k, v)]
  | (k', v') :: rest => if k' = k then (k, v) :: rest else (k', v') :: dinsert k v rest

/-- Deletion `d.pop(k)` on a Python dict: remove the entry for `k`.
Lists built by `dinsert` from `[]` have unique keys, where removing
every matching entry coincides with removing the single one. -/
def derase (k : String) (l : List (String × V)) : List (String × V) :=
  l.filter (fun p => p.1 ≠ k)

end DictModel

section CloudModel

variable {Config : Type u}

/-- The entry stored in `edges[edge_id]`:
`{"site_id": site_id, "edge_id": edge_id}`. -/
structure EdgeRecord where
  site_id : String
  edge_id : String
deriving DecidableEq, Repr

/-- The three in-memory stores of the cloud process. -/
structure CloudState (Config : Type u) where
  sites : List (String × Config)
  enrollment_tokens : List (String × String)
  edges : List (String × EdgeRecord)
deriving DecidableEq

/-- The distinct `HTTPException` payloads the cloud raises. -/
inductive CloudError where
  /-- 404 "site not found" -/
  | siteNotFound
  /-- 400 "invalid or expired token" -/
  | invalidToken
  /-- 404 "edge not registered" -/
  | edgeNotRegistered
deriving DecidableEq, Repr

/-- The HTTP status code attached to each `HTTPException`. -/
def CloudError.status : CloudError → Nat
  | .siteNotFound => 404
  | .invalidToken => 400
  | .edgeNotRegistered => 404

/-- POST `/api/sites/{site_id}/desired-config`: store the configuration
unconditionally and answer `{"status": "saved"}`. -/
def set_desired_config (site_id : String) (config : Config) (s : CloudState Config) :
    String × CloudState Config :=
  ("saved", { s with sites := dinsert site_id config s.sites })

/-- GET `/api/sites/{site_id}/desired-config`: 404 when the site is
unknown, otherwise the stored configuration. -/
def get_desired_config (site_id : String) (s : CloudState Config) : Except CloudError Config :=
  match dlookup site_id s.sites with
  | none => .error .siteNotFound
  | some c => .ok c

/-- POST `/api/sites/{site_id}/enrollment-token`: 404 when the site is
unknown, otherwise record `token → site_id` and return the token.  The
fresh `uuid4` value is passed in as the `token` argument. -/
def generate_token (site_id token : String) (s : CloudState Config) :
    Except CloudError String × CloudState Config :=
  match dlookup site_id s.sites with
  | none => (.error .siteNotFound, s)
  | some _ =>
      (.ok token, { s with enrollment_tokens := dinsert token site_id s.enrollment_tokens })

/-- POST `/api/edge/register`: 400 when the token is not in the store,
otherwise pop the token, bind the edge to the token's site and return
the site id. -/
def register_edge (edge_id token : String) (s : CloudState Config) :
    Except CloudError String × CloudState Config :=
  match dlookup token s.enrollment_tokens with
  | none => (.error .invalidToken, s)
  | some site_id =>
      (.ok site_id,
        { s with
          enrollment_tokens := derase token s.enrollment_tokens,
          edges := dinsert edge_id ⟨site_id, edge_id⟩ s.edges })

/-- GET `/api/edges/{edge_id}/desired-config`: 404 "edge not registered"
when the edge has no binding, then 404 "site not found" when the bound
site has no configuration, otherwise the bound site's configuration. -/
def get_edge_config (edge_id : String) (s : CloudState Config) : Except CloudError Config :=
  match dlookup edge_id s.edges with
  | none => .error .edgeNotRegistered
  | some r =>
      match dlookup r.site_id s.sites with
      | none => .error .siteNotFound
      | some c => .ok c

/-- A state-mutating call to the cloud API (the read-only handlers do
not change the stores). -/
inductive Op (Config : Type u) where
  | setConfig (site_id : String) (config : Config)
  | genToken (site_id : String) (token : String)
  | register (edge_id : String) (token : String)
deriving DecidableEq

/-- The store state after one API call (the response is discarded). -/
def applyOp (op : Op Config) (s : CloudState Config) : CloudState Config :=
  match op with
  | .setConfig site_id c => (set_desired_config site_id c s).2
  | .genToken site_id t => (generate_token site_id t s).2
  | .register e t => (register_edge e t s).2

/-- The store state after a sequence of API calls, first call first. -/
def applyOps (ops : List (Op Config)) (s : CloudState Config) : CloudState Config :=
  ops.foldl (fun s op => applyOp op s) s

/-- The cloud process starts with all three dictionaries empty; every
state it can be in arises from API calls on the empty state. -/
inductive Reachable : CloudState Config → Prop where
  | init : Reachable ⟨[], [], []⟩
  | step (op : Op Config) (s : CloudState Config) :
      Reachable s → Reachable (applyOp op s)

/-- Whether an API call issues the enrollment token string `t` (the
`uuid4` freshness assumption says a consumed token string is never
issued again). -/
def issuesToken (t : String) : Op Config → Bool
  | .genToken _ tok => tok = t
  | _ => false

/-- Whether an API call is a registration for edge `e` (the only call
that can touch `edges[e]`). -/
def rebinds (e : String) : Op Config → Bool
  | .register e' _ => e' = e
  | _ => false

/-- Every site id held by an active enrollment token or an edge binding
is a key of `sites`. -/
def SitesClosed (s : CloudState Config) : Prop :=
  (∀ t sid, dlookup t s.enrollment_tokens = some sid → (dlookup sid s.sites).isSome) ∧
  (∀ e r, dlookup e s.edges = some r → (dlookup r.site_id s.sites).isSome)

end CloudModel

section EdgeModel

variable {Config : Type u}

/-- Python truthiness test `not x` for an optional string: `None` and
the empty string are falsy. -/
def pyFalsy : Option String → Bool
  | none => true
  | some s => s = ""

/-- The mutable fields of the edge controller's `EdgeState` object. -/
structure EdgeState (Config : Type u) where
  edge_id : String
  cloud_url : String
  token : Option String
  site_id : Option String
  registered : Bool
  config : Option Config
deriving DecidableEq

/-- Outcome of the one POST in `register_with_cloud`: `failure` covers
transport errors and non-2xx responses (the cloud's 400 included);
`success` carries the body's `"site_id"` field when present
(`data.get("site_id")`). -/
inductive RegisterResponse where
  | failure
  | success (site_id : Option String)
deriving DecidableEq, Repr

/-- Outcome of the one GET in `refresh_config`: `failure` covers
transport errors and non-2xx responses; `success` carries the decoded
response body. -/
inductive FetchResult (Config : Type u) where
  | failure
  | success (body : Config)
deriving DecidableEq

/-- `EdgeState.register_with_cloud`: no-op without a token; on a failed
call do nothing; on a 2xx response set `site_id` from the body, clear
the token and set `registered`. -/
def register_with_cloud (st : EdgeState Config) (resp : RegisterResponse) : EdgeState Config :=
  if pyFalsy st.token then st
  else
    match resp with
    | .failure => st
    | .success sid => { st with site_id := sid, token := none, registered := true }

/-- `EdgeState.refresh_config`: no-op unless registered with a site; on
a failed call do nothing; on a 2xx response overwrite the cached
configuration with the body. -/
def refresh_config (st : EdgeState Config) (resp : FetchResult Config) : EdgeState Config :=
  if !st.registered || pyFalsy st.site_id then st
  else
    match resp with
    | .failure => st
    | .success body => { st with config := some body }

/-- One iteration of the `while True` loop in `run_background_tasks`:
retry registration when unregistered with a token, then refresh the
configuration.  The outcomes of the two potential HTTP calls are the
explicit arguments. -/
def tick (st : EdgeState Config) (r : RegisterResponse) (f : FetchResult Config) :
    EdgeState Config :=
  let st1 := if !st.registered && !(pyFalsy st.token) then register_with_cloud st r else st
  refresh_config st1 f

end EdgeModel

section DictLemmas

variable {V : Type u}

theorem dlookup_dinsert (k k' : String) (v : V) (l : List (String × V)) :
    dlookup k (dinsert k' v l) = if k' = k then some v else dlookup k l := by
  induction l with
  | nil => simp [dinsert, dlookup]
  | cons hd tl ih =>
    by_cases h1 : hd.1 = k'
    · by_cases h2 : k' = k <;> simp [dinsert, dlookup, h1, h2]
    · by_cases h2 : hd.1 = k
      · have h3 : ¬ k' = k := fun hk => h1 (h2.trans hk.symm)
        have h4 : ¬ k = k' := fun hk => h3 hk.symm
        simp [dinsert, dlookup, h1, h2, h3, h4]
      · simp [dinsert, dlookup, h1, h2, ih]

theorem dlookup_derase (k k' : String) (l : List (String × V)) :
    dlookup k (derase k' l) = if k' = k then none else dlookup k l := by
  induction l with
  | nil => simp [derase, dlookup]
  | cons hd tl ih =>
    by_cases h1 : hd.1 = k'
    · have hdrop : derase k' (hd :: tl) = derase k' tl := by
        simp [derase, List.filter_cons, h1]
      rw [hdrop, ih]
      by_cases h2 : k' = k
      · simp [h2]
      · have h3 : ¬ hd.1 = k := fun hk => h2 (h1.symm.trans hk)
        simp [dlookup, h2, h3]
    · have hkeep : derase k' (hd :: tl) = hd :: derase k' tl := by
        simp [derase, List.filter_cons, h1]
      rw [hkeep]
      by_cases h2 : hd.1 = k
      · have hkk : ¬ k' = k := fun hk => h1 (h2.trans hk.symm)
        simp [dlookup, h2, hkk]
      · simp [dlookup, h2, ih]

theorem dinsert_idem (k : String) (v : V) (l : List (String × V)) :
    dinsert k v (dinsert k v l) = dinsert k v l := by
  induction l with
  | nil => simp [dinsert]
  | cons hd tl ih =>
    by_cases h : hd.1 = k
    · simp [dinsert, h]
    · simp [dinsert, h, ih]

theorem isSome_dlookup_dinsert (k k' : String) (v : V) (l : List (String × V))
    (h : (dlookup k l).isSome) : (dlookup k (dinsert k' v l)).isSome := by
  rw [dlookup_dinsert]
  by_cases hk : k' = k <;> simp [hk, h]

end DictLemmas

section CloudTheorems

variable {Config : Type u}

/-- C2: a `register_edge` call whose token is not in the active token
store fails with the invalid-token error (HTTP 400) and leaves all
three cloud stores exactly as they were. -/
theorem register_edge_invalid_token_frame (edge_id token : String) (s : CloudState Config)
    (h : dlookup token s.enrollment_tokens = none) :
    register_edge edge_id token s = (.error .invalidToken, s) ∧
    CloudError.status .invalidToken = 400 := by
  constructor
  · simp [register_edge, h]
  · rfl

/-- Witness for C2 at a populated concrete state. -/
theorem register_edge_invalid_token_frame_witness :
    register_edge "edge-9" "t1"
        (⟨[("site-A", 1)], [("t2", "site-A")], [("e0", ⟨"site-A", "e0"⟩)]⟩ : CloudState Nat)
      = (.error .invalidToken,
        (⟨[("site-A", 1)], [("t2", "site-A")], [("e0", ⟨"site-A", "e0"⟩)]⟩ : CloudState Nat)) :=
  (register_edge_invalid_token_frame "edge-9" "t1" _ (by decide)).1

/-- C4: registering an already-bound edge with a valid token for
another site succeeds and overwrites the binding; the bind step has no
failure condition of its own. -/
theorem register_edge_overwrites_binding (edge_id token2 S1 S2 : String) (s : CloudState Config)
    (hbound : dlookup edge_id s.edges = some ⟨S1, edge_id⟩)
    (htok : dlookup token2 s.enrollment_tokens = some S2) :
    (register_edge edge_id token2 s).1 = .ok S2 ∧
    dlookup edge_id (register_edge edge_id token2 s).2.edges = some ⟨S2, edge_id⟩ := by
  simp [register_edge, htok, dlookup_dinsert]

/-- Witness for C4: `e` bound to site `A`, a fresh token for `B`
rebinds it to `B`. -/
theorem register_edge_overwrites_binding_witness :
    (register_edge "e" "t2"
        (⟨[("A", 1), ("B", 2)], [("t2", "B")], [("e", ⟨"A", "e"⟩)]⟩ : CloudState Nat)).1
      = .ok "B" ∧
    dlookup "e" (register_edge "e" "t2"
        (⟨[("A", 1), ("B", 2)], [("t2", "B")], [("e", ⟨"A", "e"⟩)]⟩ : CloudState Nat)).2.edges
      = some ⟨"B", "e"⟩ :=
  register_edge_overwrites_binding "e" "t2" "A" "B" _ (by decide) (by decide)

/-- C7: `get_edge_config` fails with the edge-not-registered error when
the edge has no binding, with the site-not-found error when the bound
site has no stored configuration, and otherwise returns exactly the
bound site's configuration; the two failures are distinct error
kinds. -/
theorem get_edge_config_taxonomy (edge_id : String) (s : CloudState Config) :
    (dlookup edge_id s.edges = none →
      get_edge_config edge_id s = .error .edgeNotRegistered) ∧
    (∀ r : EdgeRecord, dlookup edge_id s.edges = some r →
      dlookup r.site_id s.sites = none →
      get_edge_config edge_id s = .error .siteNotFound) ∧
    (∀ (r : EdgeRecord) (c : Config), dlookup edge_id s.edges = some r →
      dlookup r.site_id s.sites = some c →
      get_edge_config edge_id s = .ok c) ∧
    CloudError.edgeNotRegistered ≠ CloudError.siteNotFound := by
  refine ⟨?_, ?_, ?_, by decide⟩
  · intro h; simp [get_edge_config, h]
  · intro r h1 h2; simp [get_edge_config, h1, h2]
  · intro r c h1 h2; simp [get_edge_config, h1, h2]

/-- Witness for C7: all three branches at concrete states. -/
theorem get_edge_config_taxonomy_witness :
    get_edge_config "ghost" (⟨[("A", 1)], [], [("e", ⟨"A", "e"⟩)]⟩ : CloudState Nat)
      = .error .edgeNotRegistered ∧
    get_edge_config "f" (⟨[("A", 1)], [], [("f", ⟨"gone", "f"⟩)]⟩ : CloudState Nat)
      = .error .siteNotFound ∧
    get_edge_config "e" (⟨[("A", 1)], [], [("e", ⟨"A", "e"⟩)]⟩ : CloudState Nat)
      = .ok 1 :=
  ⟨(get_edge_config_taxonomy "ghost" _).1 (by decide),
    (get_edge_config_taxonomy "f" _).2.1 ⟨"gone", "f"⟩ (by decide) (by decide),
    (get_edge_config_taxonomy "e" _).2.2.1 ⟨"A", "e"⟩ 1 (by decide) (by decide)⟩

/-- C8: `set_desired_config` never fails and answers "saved"; a read of
the same site immediately after returns exactly the written
configuration; repeating the identical write changes nothing
observable. -/
theorem config_store_roundtrip_idem (site_id : String) (c : Config) (s : CloudState Config) :
    (set_desired_config site_id c s).1 = "saved" ∧
    get_desired_config site_id (set_desired_config site_id c s).2 = .ok c ∧
    set_desired_config site_id c (set_desired_config site_id c s).2
      = set_desired_config site_id c s := by
  refine ⟨rfl, ?_, ?_⟩
  · simp [get_desired_config, set_desired_config, dlookup_dinsert]
  · simp [set_desired_config, dinsert_idem]

end CloudTheorems

section EdgeTheorems

variable {Config : Type u}

/-- C5: when the edge holds a token and is unregistered, a failed
registration call (transport error or any non-2xx status, the cloud's
400 included) leaves the whole edge state unchanged — the token is
kept, `registered` stays false, `site_id` stays `None` — so the next
tick retries with the identical credential. -/
theorem register_failure_retry_safe (st : EdgeState Config)
    (htok : pyFalsy st.token = false) (hreg : st.registered = false)
    (hsid : st.site_id = none) :
    register_with_cloud st .failure = st ∧
    (register_with_cloud st .failure).token = st.token ∧
    (register_with_cloud st .failure).registered = false ∧
    (register_with_cloud st .failure).site_id = none ∧
    (∀ f : FetchResult Config, tick st .failure f = st) := by
  have h : register_with_cloud st RegisterResponse.failure = st := by
    simp [register_with_cloud, htok]
  refine ⟨h, by rw [h], by rw [h, hreg], by rw [h, hsid], ?_⟩
  intro f
  simp [tick, hreg, htok, h, refresh_config]

/-- Witness for C5 at a concrete unregistered state holding a token. -/
theorem register_failure_retry_safe_witness :
    register_with_cloud
        (⟨"edge-1", "http://cloud", some "tok", none, false, (none : Option Nat)⟩ : EdgeState Nat)
        .failure
      = ⟨"edge-1", "http://cloud", some "tok", none, false, none⟩ ∧
    tick (⟨"edge-1", "http://cloud", some "tok", none, false, (none : Option Nat)⟩ : EdgeState Nat)
        .failure .failure
      = ⟨"edge-1", "http://cloud", some "tok", none, false, none⟩ :=
  ⟨(register_failure_retry_safe _ (by decide) rfl rfl).1,
    (register_failure_retry_safe _ (by decide) rfl rfl).2.2.2.2 .failure⟩

/-- C6: a failed configuration fetch leaves the edge state (cached
config included) exactly unchanged; a successful fetch while registered
with a site replaces the cached config wholesale with the response body
and changes no other field. -/
theorem refresh_config_frame (st : EdgeState Config) :
    refresh_config st .failure = st ∧
    (st.registered = true → pyFalsy st.site_id = false →
      ∀ c : Config, refresh_config st (.success c) = { st with config := some c }) := by
  constructor
  · unfold refresh_config
    split
    · rfl
    · rfl
  · intro h1 h2 c
    simp [refresh_config, h1, h2]

/-- Witness for C6 at a concrete registered state. -/
theorem refresh_config_frame_witness :
    refresh_config
        (⟨"edge-1", "http://cloud", none, some "A", true, some 1⟩ : EdgeState Nat) .failure
      = ⟨"edge-1", "http://cloud", none, some "A", true, some 1⟩ ∧
    refresh_config
        (⟨"edge-1", "http://cloud", none, some "A", true, some 1⟩ : EdgeState Nat) (.success 2)
      = ⟨"edge-1", "http://cloud", none, some "A", true, some 2⟩ :=
  ⟨(refresh_config_frame _).1, (refresh_config_frame _).2 rfl (by decide) 2⟩

/-- C10: on a 2xx registration response whose body has no "site_id"
field, the edge sets `registered`, clears its token and leaves
`site_id = None`; from that state every refresh returns immediately
without fetching and every further tick is a no-op, so the agent is
stuck registered with no site and no configuration. -/
theorem register_missing_site_id_stuck (st : EdgeState Config)
    (htok : pyFalsy st.token = false) :
    (register_with_cloud st (.success none)).registered = true ∧
    (register_with_cloud st (.success none)).token = none ∧
    (register_with_cloud st (.success none)).site_id = none ∧
    (∀ f : FetchResult Config,
      refresh_config (register_with_cloud st (.success none)) f
        = register_with_cloud st (.success none)) ∧
    (∀ (r : RegisterResponse) (f : FetchResult Config),
      tick (register_with_cloud st (.success none)) r f
        = register_with_cloud st (.success none)) := by
  have h : register_with_cloud st (RegisterResponse.success none)
      = { st with site_id := none, token := none, registered := true } := by
    simp [register_with_cloud, htok]
  rw [h]
  refine ⟨rfl, rfl, rfl, ?_, ?_⟩
  · intro f
    simp [refresh_config, pyFalsy]
  · intro r f
    simp [tick, refresh_config, pyFalsy]

/-- Witness for C10 at a concrete state holding a token. -/
theorem register_missing_site_id_stuck_witness :
    (register_with_cloud
        (⟨"edge-1", "http://cloud", some "tok", none, false, (none : Option Nat)⟩ : EdgeState Nat)
        (.success none)).registered = true ∧
    (register_with_cloud
        (⟨"edge-1", "http://cloud", some "tok", none, false, (none : Option Nat)⟩ : EdgeState Nat)
        (.success none)).token = none ∧
    tick (register_with_cloud
        (⟨"edge-1", "http://cloud", some "tok", none, false, (none : Option Nat)⟩ : EdgeState Nat)
        (.success none)) .failure (.success 5)
      = register_with_cloud
        (⟨"edge-1", "http://cloud", some "tok", none, false, (none : Option Nat)⟩ : EdgeState Nat)
        (.success none) :=
  ⟨(register_missing_site_id_stuck _ (by decide)).1,
    (register_missing_site_id_stuck _ (by decide)).2.1,
    (register_missing_site_id_stuck _ (by decide)).2.2.2.2 .failure (.success 5)⟩

end EdgeTheorems

section TokenTheorems

variable {Config : Type u}

theorem token_absent_applyOp (t : String) (op : Op Config) (s : CloudState Config)
    (h : dlookup t s.enrollment_tokens = none)
    (hfresh : issuesToken t op = false) :
    dlookup t (applyOp op s).enrollment_tokens = none := by
  cases op with
  | setConfig sid c => simpa [applyOp, set_desired_config] using h
  | genToken sid tok =>
      have hne : ¬ tok = t := by simpa [issuesToken] using hfresh
      cases hs : dlookup sid s.sites with
      | none => simpa [applyOp, generate_token, hs] using h
      | some c => simp [applyOp, generate_token, hs, dlookup_dinsert, hne, h]
  | register e tok =>
      cases hs : dlookup tok s.enrollment_tokens with
      | none => simpa [applyOp, register_edge, hs] using h
      | some sid => simp [applyOp, register_edge, hs, dlookup_derase, h]

theorem token_absent_applyOps (t : String) (ops : List (Op Config)) (s : CloudState Config)
    (h : dlookup t s.enrollment_tokens = none)
    (hfresh : ∀ op ∈ ops, issuesToken t op = false) :
    dlookup t (applyOps ops s).enrollment_tokens = none := by
  induction ops generalizing s with
  | nil => simpa [applyOps] using h
  | cons op rest ih =>
      have hstep := token_absent_applyOp t op s h (hfresh op (by simp))
      have htail : ∀ o ∈ rest, issuesToken t o = false := fun o ho => hfresh o (by simp [ho])
      simpa [applyOps] using ih (applyOp op s) hstep htail

/-- C1: once a `register_edge` call carrying token `t` has succeeded,
`t` is gone from the token store, and after any further sequence of API
calls that never issues the string `t` again (the uuid4 freshness
assumption), every `register_edge` call carrying `t` fails with the
invalid-token error, whose HTTP status is 400. -/
theorem token_at_most_once (e t site : String) (s s' : CloudState Config)
    (h : register_edge e t s = (.ok site, s'))
    (ops : List (Op Config))
    (hfresh : ∀ op ∈ ops, issuesToken t op = false) :
    dlookup t s'.enrollment_tokens = none ∧
    (∀ e', register_edge e' t (applyOps ops s')
      = (.error .invalidToken, applyOps ops s')) ∧
    CloudError.status .invalidToken = 400 := by
  cases hs : dlookup t s.enrollment_tokens with
  | none => simp [register_edge, hs] at h
  | some sid =>
      have hs' : s'.enrollment_tokens = derase t s.enrollment_tokens := by
        simp [register_edge, hs] at h
        rw [← h.2]
      have habs : dlookup t s'.enrollment_tokens = none := by
        rw [hs', dlookup_derase]
        simp
      have habs2 : dlookup t (applyOps ops s').enrollment_tokens = none :=
        token_absent_applyOps t ops s' habs hfresh
      refine ⟨habs, ?_, rfl⟩
      intro e'
      simp [register_edge, habs2]

/-- Witness for C1: redeem `t1`, run two unrelated calls, redeem `t1`
again and fail. -/
theorem token_at_most_once_witness :
    register_edge "edge-9" "t1" (⟨[("site-A", 1)], [("t1", "site-A")], []⟩ : CloudState Nat)
      = (.ok "site-A", ⟨[("site-A", 1)], [], [("edge-9", ⟨"site-A", "edge-9"⟩)]⟩) ∧
    register_edge "edge-10" "t1"
        (applyOps [Op.setConfig "site-A" 2, Op.genToken "site-A" "t2"]
          (⟨[("site-A", 1)], [], [("edge-9", ⟨"site-A", "edge-9"⟩)]⟩ : CloudState Nat))
      = (.error .invalidToken,
        applyOps [Op.setConfig "site-A" 2, Op.genToken "site-A" "t2"]
          (⟨[("site-A", 1)], [], [("edge-9", ⟨"site-A", "edge-9"⟩)]⟩ : CloudState Nat)) :=
  ⟨rfl,
    (token_at_most_once "edge-9" "t1" "site-A"
      (⟨[("site-A", 1)], [("t1", "site-A")], []⟩ : CloudState Nat)
      (⟨[("site-A", 1)], [], [("edge-9", ⟨"site-A", "edge-9"⟩)]⟩ : CloudState Nat) rfl
      [Op.setConfig "site-A" 2, Op.genToken "site-A" "t2"] (by decide)).2.1 "edge-10"⟩

end TokenTheorems

section BindingTheorems

variable {Config : Type u}

theorem binding_preserved_applyOp (e : String) (r : EdgeRecord) (op : Op Config)
    (s : CloudState Config) (h : dlookup e s.edges = some r)
    (hop : rebinds e op = false) :
    dlookup e (applyOp op s).edges = some r := by
  cases op with
  | setConfig sid c => simpa [applyOp, set_desired_config] using h
  | genToken sid tok =>
      cases hs : dlookup sid s.sites <;> simp [applyOp, generate_token, hs, h]
  | register e' tok =>
      have hne : ¬ e' = e := by simpa [rebinds] using hop
      cases hs : dlookup tok s.enrollment_tokens <;>
        simp [applyOp, register_edge, hs, dlookup_dinsert, hne, h]

theorem binding_preserved_applyOps (e : String) (r : EdgeRecord) (ops : List (Op Config))
    (s : CloudState Config) (h : dlookup e s.edges = some r)
    (hfree : ∀ op ∈ ops, rebinds e op = false) :
    dlookup e (applyOps ops s).edges = some r := by
  induction ops generalizing s with
  | nil => simpa [applyOps] using h
  | cons op rest ih =>
      have hstep := binding_preserved_applyOp e r op s h (hfree op (by simp))
      have htail : ∀ o ∈ rest, rebinds e o = false := fun o ho => hfree o (by simp [ho])
      simpa [applyOps] using ih (applyOp op s) hstep htail

/-- C3 counterexample: after `e` registers with `t1` and is bound to
site `A`, a subsequent registration of the same edge with a valid token
`t2` for site `B` moves the binding to `B`, and `get_edge_config`
thereafter resolves against `B`'s configuration, not `A`'s. -/
theorem binding_stability_counterexample :
    (register_edge "e" "t1"
        (⟨[("A", 1), ("B", 2)], [("t1", "A"), ("t2", "B")], []⟩ : CloudState Nat)).1
      = .ok "A" ∧
    dlookup "e" (register_edge "e" "t1"
        (⟨[("A", 1), ("B", 2)], [("t1", "A"), ("t2", "B")], []⟩ : CloudState Nat)).2.edges
      = some ⟨"A", "e"⟩ ∧
    dlookup "e" (applyOps [Op.register "e" "t2"] (register_edge "e" "t1"
        (⟨[("A", 1), ("B", 2)], [("t1", "A"), ("t2", "B")], []⟩ : CloudState Nat)).2).edges
      = some ⟨"B", "e"⟩ ∧
    (some (⟨"B", "e"⟩ : EdgeRecord) ≠ some ⟨"A", "e"⟩) ∧
    get_edge_config "e" (applyOps [Op.register "e" "t2"] (register_edge "e" "t1"
        (⟨[("A", 1), ("B", 2)], [("t1", "A"), ("t2", "B")], []⟩ : CloudState Nat)).2)
      = .ok 2 ∧
    get_desired_config "A" (applyOps [Op.register "e" "t2"] (register_edge "e" "t1"
        (⟨[("A", 1), ("B", 2)], [("t1", "A"), ("t2", "B")], []⟩ : CloudState Nat)).2)
      = .ok 1 ∧
    (2 : Nat) ≠ 1 :=
  ⟨rfl, rfl, rfl, by decide, rfl, rfl, by decide⟩

/-- C3 amended: once `register_edge(e, t)` succeeds with site `S`, the
binding of `e` is unchanged by every later sequence of API calls that
contains no registration for `e` itself, and over those states
`get_edge_config e` resolves exactly as a read of `S`'s configuration
(in particular it follows later overwrites of `S`'s config). -/
theorem binding_stability_amended (e t site : String) (s s' : CloudState Config)
    (h : register_edge e t s = (.ok site, s'))
    (ops : List (Op Config)) (hfree : ∀ op ∈ ops, rebinds e op = false) :
    dlookup e (applyOps ops s').edges = some ⟨site, e⟩ ∧
    get_edge_config e (applyOps ops s') = get_desired_config site (applyOps ops s') := by
  cases hs : dlookup t s.enrollment_tokens with
  | none => simp [register_edge, hs] at h
  | some sid =>
      have hbind : dlookup e s'.edges = some ⟨site, e⟩ := by
        simp [register_edge, hs] at h
        rw [← h.2, ← h.1]
        simp [dlookup_dinsert]
      have hbind2 : dlookup e (applyOps ops s').edges = some ⟨site, e⟩ :=
        binding_preserved_applyOps e ⟨site, e⟩ ops s' hbind hfree
      refine ⟨hbind2, ?_⟩
      cases hcs : dlookup site (applyOps ops s').sites <;>
        simp [get_edge_config, get_desired_config, hbind2, hcs]

/-- Witness for the amended C3: after `e` binds to `A`, an overwrite of
`A`'s config and a registration of a different edge leave `e` bound to
`A`, and `e`'s config read returns `A`'s new configuration. -/
theorem binding_stability_amended_witness :
    dlookup "e" (applyOps [Op.setConfig "A" 7, Op.register "f" "t2"] (register_edge "e" "t1"
        (⟨[("A", 1), ("B", 2)], [("t1", "A"), ("t2", "B")], []⟩ : CloudState Nat)).2).edges
      = some ⟨"A", "e"⟩ ∧
    get_edge_config "e" (applyOps [Op.setConfig "A" 7, Op.register "f" "t2"]
        (register_edge "e" "t1"
          (⟨[("A", 1), ("B", 2)], [("t1", "A"), ("t2", "B")], []⟩ : CloudState Nat)).2)
      = get_desired_config "A" (applyOps [Op.setConfig "A" 7, Op.register "f" "t2"]
        (register_edge "e" "t1"
          (⟨[("A", 1), ("B", 2)], [("t1", "A"), ("t2", "B")], []⟩ : CloudState Nat)).2) :=
  binding_stability_amended "e" "t1" "A"
    (⟨[("A", 1), ("B", 2)], [("t1", "A"), ("t2", "B")], []⟩ : CloudState Nat)
    (⟨[("A", 1), ("B", 2)], [("t2", "B")], [("e", ⟨"A", "e"⟩)]⟩ : CloudState Nat) rfl
    [Op.setConfig "A" 7, Op.register "f" "t2"] (by decide)

end BindingTheorems

section InvariantTheorems

variable {Config : Type u}

theorem sitesClosed_applyOp (op : Op Config) (s : CloudState Config)
    (h : SitesClosed s) : SitesClosed (applyOp op s) := by
  obtain ⟨htok, hedge⟩ := h
  cases op with
  | setConfig sid c =>
      refine ⟨?_, ?_⟩
      · intro t sid' ht
        exact isSome_dlookup_dinsert _ _ _ _
          (htok t sid' (by simpa [applyOp, set_desired_config] using ht))
      · intro e r he
        exact isSome_dlookup_dinsert _ _ _ _
          (hedge e r (by simpa [applyOp, set_desired_config] using he))
  | genToken sid tok =>
      cases hs : dlookup sid s.sites with
      | none =>
          have heq : applyOp (Op.genToken sid tok) s = s := by
            simp [applyOp, generate_token, hs]
          rw [heq]
          exact ⟨htok, hedge⟩
      | some c =>
          have hsites : (applyOp (Op.genToken sid tok) s).sites = s.sites := by
            simp [applyOp, generate_token, hs]
          have htoks : (applyOp (Op.genToken sid tok) s).enrollment_tokens
              = dinsert tok sid s.enrollment_tokens := by
            simp [applyOp, generate_token, hs]
          have hedges : (applyOp (Op.genToken sid tok) s).edges = s.edges := by
            simp [applyOp, generate_token, hs]
          refine ⟨?_, ?_⟩
          · intro t sid' ht
            rw [htoks, dlookup_dinsert] at ht
            rw [hsites]
            by_cases hk : tok = t
            · rw [if_pos hk] at ht
              injection ht with h1
              rw [← h1, hs]
              rfl
            · rw [if_neg hk] at ht
              exact htok t sid' ht
          · intro e r he
            rw [hedges] at he
            rw [hsites]
            exact hedge e r he
  | register e' tok =>
      cases hs : dlookup tok s.enrollment_tokens with
      | none =>
          have heq : applyOp (Op.register e' tok) s = s := by
            simp [applyOp, register_edge, hs]
          rw [heq]
          exact ⟨htok, hedge⟩
      | some sid =>
          have hsites : (applyOp (Op.register e' tok) s).sites = s.sites := by
            simp [applyOp, register_edge, hs]
          have htoks : (applyOp (Op.register e' tok) s).enrollment_tokens
              = derase tok s.enrollment_tokens := by
            simp [applyOp, register_edge, hs]
          have hedges : (applyOp (Op.register e' tok) s).edges
              = dinsert e' ⟨sid, e'⟩ s.edges := by
            simp [applyOp, register_edge, hs]
          refine ⟨?_, ?_⟩
          · intro t sid' ht
            rw [htoks, dlookup_derase] at ht
            rw [hsites]
            by_cases hk : tok = t
            · rw [if_pos hk] at ht
              exact absurd ht (by simp)
            · rw [if_neg hk] at ht
              exact htok t sid' ht
          · intro e r he
            rw [hedges, dlookup_dinsert] at he
            rw [hsites]
            by_cases hk : e' = e
            · rw [if_pos hk] at he
              injection he with h1
              rw [← h1]
              exact htok tok sid hs
            · rw [if_neg hk] at he
              exact hedge e r he

theorem reachable_sitesClosed (s : CloudState Config) (h : Reachable s) : SitesClosed s := by
  induction h with
  | init =>
      exact ⟨fun t sid ht => by simp [dlookup] at ht,
        fun e r he => by simp [dlookup] at he⟩
  | step op s hs ih => exact sitesClosed_applyOp op s ih

/-- C9: in every cloud state reachable through the API, the site id in
every active enrollment token and in every edge binding is a key of the
sites map, so for a registered edge the "site not found" branch of
`get_edge_config` is unreachable. -/
theorem reachable_no_orphan_site (s : CloudState Config) (h : Reachable s) :
    (∀ t sid, dlookup t s.enrollment_tokens = some sid → (dlookup sid s.sites).isSome) ∧
    (∀ e r, dlookup e s.edges = some r → (dlookup r.site_id s.sites).isSome) ∧
    (∀ e, (dlookup e s.edges).isSome → get_edge_config e s ≠ .error .siteNotFound) := by
  obtain ⟨htok, hedge⟩ := reachable_sitesClosed s h
  refine ⟨htok, hedge, ?_⟩
  intro e he
  cases hb : dlookup e s.edges with
  | none => simp [hb] at he
  | some r =>
      have hsome := hedge e r hb
      cases hc : dlookup r.site_id s.sites with
      | none => simp [hc] at hsome
      | some c => simp [get_edge_config, hb, hc]

/-- Witness for C9: the state reached by creating site `A`, issuing a
token and registering edge `e` never answers "site not found" for
`e`. -/
theorem reachable_no_orphan_site_witness :
    get_edge_config "e" (applyOp (Op.register "e" "t") (applyOp (Op.genToken "A" "t")
        (applyOp (Op.setConfig "A" (1 : Nat)) ⟨[], [], []⟩)))
      ≠ .error .siteNotFound :=
  (reachable_no_orphan_site _
      (Reachable.step _ _ (Reachable.step _ _ (Reachable.step _ _ Reachable.init)))).2.2
    "e" (by decide)

end InvariantTheorems
